import Mathlib

/-!
Verification of the conda-build specification against a shallow embedding.

Only two source files of the repository are available: the metapackage
helper and the build-API test suite.  The renderer, build orchestrator,
dependency-resolver adapter, lock manager and config carrier are therefore
modelled from the specification text; each such definition carries a doc
comment starting with `Modelled from the spec:`.  The metapackage helper is
translated directly from the source.
-/

namespace CondaBuild

/-! ## Run-export propagation (renderer, spec 3 and 4.2 step 4) -/

/-- A run-export declaration attached to a dependency package: constraint
strings tagged weak or strong. -/
structure RunExportsDecl where
  weak : List String
  strong : List String
  deriving DecidableEq, Repr

/-- A dependency package visible to the renderer, with its own run-export
declarations. -/
structure DepPackage where
  name : String
  runExports : RunExportsDecl
  deriving DecidableEq, Repr

/-- Concatenation of the export lists selected by `f` over a dependency
list. -/
def exportsJoin (f : DepPackage → List String) (ds : List DepPackage) : List String :=
  (ds.map f).flatten

/-- Deduplication keeping the first occurrence of each element, with an
accumulator of elements already seen. -/
def dedupFirstAux (seen : List String) : List String → List String
  | [] => []
  | x :: xs => if x ∈ seen then dedupFirstAux seen xs else x :: dedupFirstAux (x :: seen) xs

/-- Deduplication preserving first-seen order (spec 4.2 step 4). -/
def dedupFirst (l : List String) : List String :=
  dedupFirstAux [] l

/-- Modelled from the spec: run-export propagation into the consumer's
`run` section (the renderer is not under the sources; spec 3
"Run-Export Declaration" and 4.2 step 4).  When no `host` section is
present and build subdir equals host subdir, `build` is merged into `host`,
so both weak and strong exports of build dependencies reach `run`; when no
`host` section is present under cross compilation only strong build exports
reach `run`; when a `host` section is present, `run` receives the strong
exports of `build` dependencies plus the weak and strong exports of `host`
dependencies.  The merge is deduplicated preserving first-seen order. -/
def mergedRunReqs (buildDeps : List DepPackage) (hostDeps : Option (List DepPackage))
    (sameSubdir : Bool) (runBase : List String) : List String :=
  match hostDeps with
  | none =>
    if sameSubdir then
      dedupFirst (runBase ++ exportsJoin (fun d => d.runExports.strong) buildDeps
                          ++ exportsJoin (fun d => d.runExports.weak) buildDeps)
    else
      dedupFirst (runBase ++ exportsJoin (fun d => d.runExports.strong) buildDeps)
  | some hs =>
      dedupFirst (runBase ++ exportsJoin (fun d => d.runExports.strong) buildDeps
                          ++ exportsJoin (fun d => d.runExports.weak ++ d.runExports.strong) hs)

theorem mem_dedupFirstAux (seen l : List String) (x : String) :
    x ∈ dedupFirstAux seen l ↔ x ∈ l ∧ x ∉ seen := by
  induction l generalizing seen with
  | nil => simp [dedupFirstAux]
  | cons a as ih =>
    by_cases ha : a ∈ seen
    · rw [dedupFirstAux, if_pos ha, ih]
      constructor
      · rintro ⟨hx, hs⟩; exact ⟨List.mem_cons_of_mem a hx, hs⟩
      · rintro ⟨hx, hs⟩
        rcases List.mem_cons.mp hx with rfl | hx
        · exact absurd ha hs
        · exact ⟨hx, hs⟩
    · rw [dedupFirstAux, if_neg ha]
      rw [List.mem_cons, ih]
      constructor
      · rintro (rfl | ⟨hx, hs⟩)
        · exact ⟨List.mem_cons_self x as, ha⟩
        · refine ⟨List.mem_cons_of_mem a hx, fun hseen => hs ?_⟩
          exact List.mem_cons_of_mem a hseen
      · rintro ⟨hx, hs⟩
        rcases List.mem_cons.mp hx with rfl | hx
        · exact Or.inl rfl
        · by_cases hxa : x = a
          · exact Or.inl hxa
          · refine Or.inr ⟨hx, fun hmem => ?_⟩
            rcases List.mem_cons.mp hmem with rfl | hmem
            · exact hxa rfl
            · exact hs hmem

theorem mem_dedupFirst (l : List String) (x : String) :
    x ∈ dedupFirst l ↔ x ∈ l := by
  simp [dedupFirst, mem_dedupFirstAux]

theorem mem_exportsJoin (f : DepPackage → List String) (ds : List DepPackage) (x : String) :
    x ∈ exportsJoin f ds ↔ ∃ d ∈ ds, x ∈ f d := by
  simp [exportsJoin]

/-- C1: run-exports of dependencies propagate into the rendered `run`
section per the weak/strong rules: a dependency `d` listed in `build` with
no `host` section present and build subdir equal to host subdir contributes
both its weak and its strong run-exports to `run`; when a `host` section is
present, strong run-exports of `build` dependencies and weak run-exports of
`host` dependencies are included in `run`, while weak run-exports of
build-only dependencies are excluded. -/
theorem run_exports_propagation
    (bs hs : List DepPackage) (d h : DepPackage) (base : List String) (cross : Bool)
    (hd : d ∈ bs) (hh : h ∈ hs) :
    (∀ x ∈ d.runExports.weak, x ∈ mergedRunReqs bs none true base)
    ∧ (∀ x ∈ d.runExports.strong, x ∈ mergedRunReqs bs none true base)
    ∧ (∀ x ∈ d.runExports.strong, x ∈ mergedRunReqs bs (some hs) cross base)
    ∧ (∀ x ∈ h.runExports.weak, x ∈ mergedRunReqs bs (some hs) cross base)
    ∧ (∀ x ∈ d.runExports.weak, x ∉ base →
        (∀ b ∈ bs, x ∉ b.runExports.strong) →
        (∀ g ∈ hs, x ∉ g.runExports.weak ∧ x ∉ g.runExports.strong) →
        x ∉ mergedRunReqs bs (some hs) cross base) := by
  refine ⟨?_, ?_, ?_, ?_, ?_⟩
  · intro x hx
    simp only [mergedRunReqs, if_true, mem_dedupFirst, List.mem_append, mem_exportsJoin]
    exact Or.inr ⟨d, hd, hx⟩
  · intro x hx
    simp only [mergedRunReqs, if_true, mem_dedupFirst, List.mem_append, mem_exportsJoin]
    exact Or.inl (Or.inr ⟨d, hd, hx⟩)
  · intro x hx
    simp only [mergedRunReqs, mem_dedupFirst, List.mem_append, mem_exportsJoin]
    exact Or.inl (Or.inr ⟨d, hd, hx⟩)
  · intro x hx
    simp only [mergedRunReqs, mem_dedupFirst, List.mem_append, mem_exportsJoin]
    exact Or.inr ⟨h, hh, Or.inl hx⟩
  · intro x _ hbase hbs hhs hmem
    simp only [mergedRunReqs, mem_dedupFirst, List.mem_append, mem_exportsJoin] at hmem
    rcases hmem with (hx | ⟨b, hb, hxb⟩) | ⟨g, hg, hxg | hxg⟩
    · exact hbase hx
    · exact hbs b hb hxb
    · exact (hhs g hg).1 hxg
    · exact (hhs g hg).2 hxg

/-- Concrete build dependency with one weak and one strong run-export, as in
the run-exports test recipe. -/
def depRunExports : DepPackage :=
  { name := "test_has_run_exports",
    runExports := { weak := ["weak_pinned_package 1.0.*"],
                    strong := ["strong_pinned_package 1.0.*"] } }

/-- Concrete host dependency whose run-exports are all weak. -/
def depImplicitWeak : DepPackage :=
  { name := "test_has_run_exports_implicit_weak",
    runExports := { weak := ["weak_pinned_package 2.0.*"], strong := [] } }

/-- Witness for C1 at the concrete recipes of the run-exports test. -/
theorem run_exports_propagation_witness :
    "weak_pinned_package 1.0.*" ∈ mergedRunReqs [depRunExports] none true []
    ∧ "strong_pinned_package 1.0.*" ∈ mergedRunReqs [depRunExports] none true []
    ∧ "strong_pinned_package 1.0.*"
        ∈ mergedRunReqs [depRunExports] (some [depImplicitWeak]) true []
    ∧ "weak_pinned_package 2.0.*"
        ∈ mergedRunReqs [depRunExports] (some [depImplicitWeak]) true []
    ∧ "weak_pinned_package 1.0.*"
        ∉ mergedRunReqs [depRunExports] (some [depImplicitWeak]) true [] := by
  have H := run_exports_propagation [depRunExports] [depImplicitWeak]
    depRunExports depImplicitWeak [] true (by simp) (by simp)
  exact ⟨H.1 _ (by decide), H.2.1 _ (by decide), H.2.2.1 _ (by decide),
    H.2.2.2.1 _ (by decide), H.2.2.2.2 _ (by decide) (by decide) (by decide) (by decide)⟩

/-! ## Build orchestrator: depth-first frontier with cycle guard (spec 4.4, 9) -/

/-- A frontier task: either start building a recipe or finish one whose
sibling dependencies have all been processed. -/
inductive Task where
  | build (name : String)
  | finish (name : String)
  deriving DecidableEq, Repr

/-- Terminal outcome of an orchestrator run. -/
inductive BuildOutcome where
  | ok (builtOrder : List String)
  | cycleErr (offender : String)
  | missingDep (offender : String)
  | outOfFuel
  deriving DecidableEq, Repr

/-- Modelled from the spec: the build orchestrator's recursive core (the
orchestrator is not under the sources; spec 4.4 and 9).  An explicit
frontier of tasks is processed depth-first; `g` maps a recipe name (the
name/variant-signature key) to its sibling requirements.  A requirement
already available is not rebuilt; a requirement already on the resolution
call-stack is a cycle and fails fast with a recursion error; a requirement
no sibling recipe can produce fails as missing; otherwise the sibling's
requirements are pushed onto the frontier ahead of the current item.  `fuel`
bounds the number of steps so that the function is total; a run that would
loop forever is reported as `outOfFuel`. -/
def orchestrate (g : List (String × List String)) :
    Nat → List Task → List String → List String → List String → BuildOutcome
  | 0, _, _, _, _ => .outOfFuel
  | _ + 1, [], _, _, log => .ok log
  | fuel + 1, Task.build t :: rest, stack, avail, log =>
    if t ∈ avail then orchestrate g fuel rest stack avail log
    else if t ∈ stack then .cycleErr t
    else
      match g.lookup t with
      | none => .missingDep t
      | some ds => orchestrate g fuel (ds.map Task.build ++ Task.finish t :: rest)
          (t :: stack) avail log
  | fuel + 1, Task.finish t :: rest, stack, avail, log =>
    orchestrate g fuel rest (stack.erase t) (t :: avail) (log ++ [t])

/-- C2: a two-recipe cycle (recipe `a` requires `b`, recipe `b` requires
`a`, under the same variant-signature key) terminates with a recursion
error: for every sufficiently large fuel the orchestrator returns
`cycleErr` rather than running out of fuel. -/
theorem orchestrate_cycle_detected
    (g : List (String × List String)) (a b : String) (fuel : Nat)
    (hab : a ≠ b) (ha : g.lookup a = some [b]) (hb : g.lookup b = some [a])
    (hfuel : 3 ≤ fuel) :
    orchestrate g fuel [Task.build a] [] [] [] = .cycleErr a := by
  obtain ⟨k, rfl⟩ : ∃ k, fuel = k + 3 := ⟨fuel - 3, by omega⟩
  show orchestrate g (k + 2 + 1) [Task.build a] [] [] [] = .cycleErr a
  rw [orchestrate]
  rw [if_neg (by simp), if_neg (by simp), ha]
  show orchestrate g (k + 1 + 1) [Task.build b, Task.finish a] [a] [] [] = .cycleErr a
  rw [orchestrate]
  rw [if_neg (by simp), if_neg (by simp [Ne.symm hab]), hb]
  show orchestrate g (k + 1) [Task.build a, Task.finish b, Task.finish a] [b, a] [] []
      = .cycleErr a
  rw [orchestrate]
  rw [if_neg (by simp), if_pos (by simp)]

/-- Witness for C2 on the concrete two-recipe cycle. -/
theorem orchestrate_cycle_detected_witness :
    orchestrate [("recursive-build1", ["recursive-build2"]),
                 ("recursive-build2", ["recursive-build1"])]
      10 [Task.build "recursive-build1"] [] [] [] = .cycleErr "recursive-build1" :=
  orchestrate_cycle_detected _ "recursive-build1" "recursive-build2" 10
    (by decide) (by decide) (by decide) (by omega)

/-- C5: sibling-buildable requirements are handled depth-first: if recipe
`b` requires package `a` and `a` is already built, building `b` succeeds
building only `b` (no re-trigger of `a`); if `a` is not built and `a` has
no further requirements, the orchestrator builds `a` first and then `b`,
in that order. -/
theorem orchestrate_sibling_order
    (g : List (String × List String)) (a b : String) (fuel : Nat)
    (hab : a ≠ b) (hb : g.lookup b = some [a]) (ha : g.lookup a = some [])
    (hfuel : 5 ≤ fuel) :
    orchestrate g fuel [Task.build b] [] [a] [] = .ok [b]
    ∧ orchestrate g fuel [Task.build b] [] [] [] = .ok [a, b] := by
  obtain ⟨k, rfl⟩ : ∃ k, fuel = k + 5 := ⟨fuel - 5, by omega⟩
  constructor
  · show orchestrate g (k + 4 + 1) [Task.build b] [] [a] [] = .ok [b]
    rw [orchestrate]
    rw [if_neg (by simp [Ne.symm hab]), if_neg (by simp), hb]
    show orchestrate g (k + 3 + 1) [Task.build a, Task.finish b] [b] [a] [] = .ok [b]
    rw [orchestrate]
    rw [if_pos (by simp)]
    show orchestrate g (k + 2 + 1) [Task.finish b] [b] [a] [] = .ok [b]
    rw [orchestrate]
    show orchestrate g (k + 1 + 1) [] ([b].erase b) [b, a] [b] = .ok [b]
    rw [orchestrate]
  · show orchestrate g (k + 4 + 1) [Task.build b] [] [] [] = .ok [a, b]
    rw [orchestrate]
    rw [if_neg (by simp), if_neg (by simp), hb]
    show orchestrate g (k + 3 + 1) [Task.build a, Task.finish b] [b] [] [] = .ok [a, b]
    rw [orchestrate]
    rw [if_neg (by simp), if_neg (by simp [hab]), ha]
    show orchestrate g (k + 2 + 1) [Task.finish a, Task.finish b] [a, b] [] [] = .ok [a, b]
    rw [orchestrate]
    show orchestrate g (k + 1 + 1) [Task.finish b] ([a, b].erase a) [a] [a] = .ok [a, b]
    rw [orchestrate]
    show orchestrate g (k + 1) [] (([a, b].erase a).erase b) [b, a] [a, b] = .ok [a, b]
    rw [orchestrate]

/-- Witness for C5 on a concrete two-recipe graph. -/
theorem orchestrate_sibling_order_witness :
    orchestrate [("b", ["a"]), ("a", [])] 9 [Task.build "b"] [] ["a"] [] = .ok ["b"]
    ∧ orchestrate [("b", ["a"]), ("a", [])] 9 [Task.build "b"] [] [] [] = .ok ["a", "b"] :=
  orchestrate_sibling_order [("b", ["a"]), ("a", [])] "a" "b" 9
    (by decide) (by decide) (by decide) (by omega)

/-! ## skip_existing short-circuit (spec 4.4) -/

/-- Identity of a built package: (name, version, build string, subdir). -/
structure PkgKey where
  name : String
  version : String
  buildString : String
  subdir : String
  deriving DecidableEq, Repr

/-- Orchestrator state of one queued item. -/
inductive ItemState where
  | pending
  | resolving
  | building
  | testing
  | done
  | failed
  deriving DecidableEq, Repr

/-- What one build invocation did for an item: its terminal state, whether
it was reported as already built, and how many dependency resolutions and
builds were performed. -/
structure ItemReport where
  finalState : ItemState
  alreadyBuilt : Bool
  resolveCount : Nat
  buildCount : Nat
  deriving DecidableEq, Repr

/-- Modelled from the spec: one orchestrator pass over a single item (the
orchestrator is not under the sources; spec 4.4 `skip_existing`).  Before
entering `RESOLVING` the item key is checked against the existing outputs;
with `skip_existing` set and a matching (name, version, build string,
subdir) output present, the item short-circuits directly to `DONE` with no
resolution and no build and is reported as already built; otherwise it is
resolved and built, and its key is added to the outputs. -/
def runBuild (skipExisting : Bool) (existing : List PkgKey) (item : PkgKey) :
    ItemReport × List PkgKey :=
  if skipExisting ∧ item ∈ existing then
    ({ finalState := .done, alreadyBuilt := true, resolveCount := 0, buildCount := 0 },
      existing)
  else
    ({ finalState := .done, alreadyBuilt := false, resolveCount := 1, buildCount := 1 },
      item :: existing)

/-- C3: building a package that is already present as an output with the
same (name, version, build string, subdir) under `skip_existing` performs
no second resolution or build, short-circuits to `DONE`, and reports the
item as already built — distinctly from the fresh first build's report. -/
theorem skip_existing_short_circuit (existing : List PkgKey) (item : PkgKey) :
    (runBuild true (runBuild false existing item).2 item).1
      = { finalState := .done, alreadyBuilt := true, resolveCount := 0, buildCount := 0 }
    ∧ (runBuild false existing item).1.alreadyBuilt = false
    ∧ (runBuild true (runBuild false existing item).2 item).1.alreadyBuilt
        ≠ (runBuild false existing item).1.alreadyBuilt := by
  have h2 : (runBuild false existing item).2 = item :: existing := by
    simp [runBuild]
  refine ⟨?_, by simp [runBuild], ?_⟩
  · rw [h2]
    simp [runBuild]
  · rw [h2]
    simp [runBuild]

/-! ## Dependency resolver adapter (spec 4.3) -/

/-- The typed unsatisfiability failure of the resolver adapter: every
unmatched spec together with the target platform. -/
structure DepNeedsBuildingError where
  missingSpecs : List String
  platform : String
  deriving DecidableEq, Repr

/-- Modelled from the spec: the dependency resolver adapter (not under the
sources; spec 4.3 `solve`).  Specs are matched against the available or
about-to-be-built packages; if any spec cannot be matched the call fails
with a `DependencyNeedsBuildingError` enumerating every unmatched spec and
the target platform, dropping none. -/
def solveAdapter (available : List String) (platform : String) (specs : List String) :
    Except DepNeedsBuildingError (List String) :=
  let missing := specs.filter (fun s => decide (s ∉ available))
  if missing.isEmpty then .ok specs
  else .error { missingSpecs := missing, platform := platform }

/-- C4: a spec list with an unsatisfiable spec that no sibling recipe can
produce fails with a `DependencyNeedsBuildingError` whose missing-spec list
contains exactly the unmatched specs (every one of them, none dropped) and
whose platform is the target platform string. -/
theorem solve_adapter_enumerates_missing
    (available specs : List String) (platform s : String)
    (hs : s ∈ specs) (hna : s ∉ available) :
    ∃ e, solveAdapter available platform specs = .error e
      ∧ e.platform = platform
      ∧ s ∈ e.missingSpecs
      ∧ (∀ t, t ∈ e.missingSpecs ↔ t ∈ specs ∧ t ∉ available) := by
  have hmem : s ∈ specs.filter (fun s => decide (s ∉ available)) := by
    rw [List.mem_filter]
    exact ⟨hs, by simpa using hna⟩
  have hne : (specs.filter (fun s => decide (s ∉ available))).isEmpty = false := by
    cases hc : specs.filter (fun s => decide (s ∉ available)) with
    | nil => rw [hc] at hmem; cases hmem
    | cons x xs => rfl
  refine ⟨{ missingSpecs := specs.filter (fun s => decide (s ∉ available)),
            platform := platform }, ?_, rfl, hmem, ?_⟩
  · simp only [solveAdapter]
    rw [hne]
    rfl
  · intro t
    rw [List.mem_filter]
    simp

/-- Witness for C4 at the concrete missing spec of the test-dependency
recipe. -/
theorem solve_adapter_enumerates_missing_witness :
    ∃ e, solveAdapter ["python"] "linux-64"
        ["python", "pytest-package-does-not-exist"] = .error e
      ∧ e.platform = "linux-64"
      ∧ "pytest-package-does-not-exist" ∈ e.missingSpecs
      ∧ (∀ t, t ∈ e.missingSpecs
          ↔ t ∈ ["python", "pytest-package-does-not-exist"] ∧ t ∉ ["python"]) :=
  solve_adapter_enumerates_missing ["python"] ["python", "pytest-package-does-not-exist"]
    "linux-64" "pytest-package-does-not-exist" (by decide) (by decide)

/-! ## Decimal tokens for build ids and hashes -/

/-- The decimal digit character for a digit value. -/
def digitChar : Nat → Char
  | 0 => '0'
  | 1 => '1'
  | 2 => '2'
  | 3 => '3'
  | 4 => '4'
  | 5 => '5'
  | 6 => '6'
  | 7 => '7'
  | 8 => '8'
  | 9 => '9'
  | _ => '*'

/-- The digit value of a decimal digit character. -/
def digitVal (c : Char) : Nat :=
  c.toNat - 48

/-- Decode a list of decimal digit characters back to the number they
encode (little-endian, matching `Nat.digits`). -/
def decodeDigits (l : List Char) : Nat :=
  Nat.ofDigits 10 (l.map digitVal)

/-- The decimal token for a natural number, used in build-folder names and
hash tokens. -/
def natToken (n : Nat) : String :=
  String.mk ((Nat.digits 10 n).map digitChar)

theorem decode_encode_digits (n : Nat) :
    decodeDigits ((Nat.digits 10 n).map digitChar) = n := by
  unfold decodeDigits
  rw [List.map_map]
  have hpt : ∀ d ∈ Nat.digits 10 n, (digitVal ∘ digitChar) d = d := by
    intro d hd
    have hlt : d < 10 := Nat.digits_lt_base (by norm_num) hd
    interval_cases d <;> rfl
  rw [List.map_congr_left hpt]
  simpa using Nat.ofDigits_digits 10 n

theorem natToken_data_inj (m n : Nat)
    (h : (natToken m).data = (natToken n).data) : m = n := by
  have hd : ((Nat.digits 10 m).map digitChar) = ((Nat.digits 10 n).map digitChar) := h
  have hdec := congrArg decodeDigits hd
  rwa [decode_encode_digits, decode_encode_digits] at hdec

theorem natToken_inj (m n : Nat) (h : natToken m = natToken n) : m = n :=
  natToken_data_inj m n (congrArg String.data h)

/-! ## Config propagation by value (spec 2, 5, 9) -/

/-- The build-time configuration carried through the pipeline. -/
structure Config where
  croot : String
  hostSubdir : String
  workDir : String
  dirty : Bool
  deriving DecidableEq, Repr

/-- Source of fresh build ids for computed build folders. -/
structure RenderWorld where
  nextBuildId : Nat
  deriving DecidableEq, Repr

/-- The work directory inside the build folder derived from a build id. -/
def workDirFor (croot recipeName : String) (buildId : Nat) : String :=
  croot ++ "/" ++ recipeName ++ "_" ++ natToken buildId ++ "/work"

/-- Modelled from the spec: config handling of a render/build invocation
(the config carrier is not under the sources; spec 2 "never globally
mutated in place", 5 and 9 "explicit value-copy-per-branch config
objects").  The caller's config is deep-copied into the produced metadata
and the build folder is computed on the copy: with dirty reuse the copy
keeps the existing work directory, otherwise a fresh build id yields a
fresh work directory.  Returns the metadata's config copy, the caller's
config after the call, and the updated world. -/
def renderConfigCopy (c : Config) (recipeName : String) (dirty : Bool)
    (w : RenderWorld) : Config × Config × RenderWorld :=
  if dirty then
    ({ c with dirty := true }, c, w)
  else
    ({ c with workDir := workDirFor c.croot recipeName w.nextBuildId, dirty := false },
      c, { nextBuildId := w.nextBuildId + 1 })

theorem workDirFor_inj (croot recipeName : String) (i j : Nat)
    (h : workDirFor croot recipeName i = workDirFor croot recipeName j) : i = j := by
  have hd := congrArg String.data h
  simp only [workDirFor, String.data_append] at hd
  have h1 := List.append_cancel_right hd
  have h2 := List.append_cancel_left h1
  exact natToken_data_inj i j h2

/-- C8: configs are propagated by value and never mutated in place: after
any render/build invocation the caller's config is unchanged (whether or
not dirty reuse is requested); with dirty reuse the metadata's config keeps
the caller's work directory, and two successive renders without dirty
reuse obtain distinct work directories. -/
theorem config_propagated_by_value (c : Config) (recipeName : String)
    (dirty : Bool) (w : RenderWorld) :
    (renderConfigCopy c recipeName dirty w).2.1 = c
    ∧ (renderConfigCopy c recipeName true w).1.workDir = c.workDir
    ∧ (renderConfigCopy c recipeName false
        (renderConfigCopy c recipeName false w).2.2).1.workDir
      ≠ (renderConfigCopy c recipeName false w).1.workDir := by
  refine ⟨?_, ?_, ?_⟩
  · cases dirty <;> simp [renderConfigCopy]
  · simp [renderConfigCopy]
  · simp only [renderConfigCopy, if_neg Bool.false_ne_true]
    intro h
    have := workDirFor_inj c.croot recipeName (w.nextBuildId + 1) w.nextBuildId h
    omega

/-! ## Renderer determinism (spec 4.2, 8) -/

/-- A recipe template as seen by the renderer: package identity, an
optional explicit build string, and the raw per-section requirement
lists. -/
structure RecipeTemplate where
  name : String
  version : String
  explicitBuildString : Option String
  buildReqs : List String
  hostReqs : List String
  runReqs : List String
  deriving DecidableEq, Repr

/-- One concrete variant: a mapping from dimension name to pinned value. -/
structure Variant where
  pins : List (String × String)
  deriving DecidableEq, Repr

/-- Resolve one requirement section against a variant: a requirement whose
name is a pinned dimension picks up the pin. -/
def resolveSection (v : Variant) (reqs : List String) : List String :=
  reqs.map (fun r =>
    match v.pins.lookup r with
    | some pin => r ++ " " ++ pin
    | none => r)

/-- A stable hash of a dependency list (spec 4.2 step 3), reduced modulo a
fixed width. -/
def hashDeps (deps : List String) : Nat :=
  deps.foldl (fun h s => s.foldl (fun h2 c => (h2 * 31 + c.toNat) % 16777216) h) 5381

/-- The build string: explicit when the recipe gives one, otherwise derived
from the hash of the resolved build+host dependency set. -/
def buildStringFor (t : RecipeTemplate) (resolvedBuildHost : List String) : String :=
  match t.explicitBuildString with
  | some s => s
  | none => "h" ++ natToken (hashDeps resolvedBuildHost) ++ "_0"

/-- A rendered metadata object: one template crossed with one variant,
fully resolved. -/
structure RenderedMetadata where
  name : String
  version : String
  buildString : String
  subdir : String
  buildReqs : List String
  hostReqs : List String
  runReqs : List String
  deriving DecidableEq, Repr

/-- Modelled from the spec: the recipe renderer (not under the sources;
spec 4.2).  A pure function of (template, variant, config): sections are
resolved against the variant in order, the build string is the explicit one
or the dependency-hash token, and the subdir comes from the config. -/
def renderMeta (t : RecipeTemplate) (v : Variant) (c : Config) : RenderedMetadata :=
  let rb := resolveSection v t.buildReqs
  let rh := resolveSection v t.hostReqs
  let rr := resolveSection v t.runReqs
  { name := t.name, version := t.version,
    buildString := buildStringFor t (rb ++ rh),
    subdir := c.hostSubdir,
    buildReqs := rb, hostReqs := rh, runReqs := rr }

/-- The output file path, predictable from the metadata alone. -/
def outputFilePath (croot : String) (m : RenderedMetadata) : String :=
  croot ++ "/" ++ m.subdir ++ "/" ++ m.name ++ "-" ++ m.version ++ "-"
    ++ m.buildString ++ ".conda"

/-- C6: rendering is deterministic: any two renderings of the same
(template, variant, config) triple agree on the build string (including
the dependency-hash token), on every resolved dependency list including
its order, and hence on the output file path. -/
theorem render_deterministic (t : RecipeTemplate) (v : Variant) (c : Config)
    (m1 m2 : RenderedMetadata)
    (h1 : m1 = renderMeta t v c) (h2 : m2 = renderMeta t v c) :
    m1.buildString = m2.buildString
    ∧ m1.buildReqs = m2.buildReqs
    ∧ m1.hostReqs = m2.hostReqs
    ∧ m1.runReqs = m2.runReqs
    ∧ outputFilePath c.croot m1 = outputFilePath c.croot m2
    ∧ m1 = m2 := by
  subst h1; subst h2
  exact ⟨rfl, rfl, rfl, rfl, rfl, rfl⟩

/-- Sample template for the determinism witness. -/
def tSample : RecipeTemplate :=
  { name := "conda-build-test-source-git-jinja2", version := "1.20.2",
    explicitBuildString := none,
    buildReqs := ["python"], hostReqs := [], runReqs := ["python"] }

/-- Sample variant for the determinism witness. -/
def vSample : Variant := { pins := [("python", "3.10")] }

/-- Sample config for the determinism witness. -/
def cSample : Config :=
  { croot := "/croot", hostSubdir := "linux-64", workDir := "/croot/w", dirty := false }

/-- Witness for C6 at a concrete (template, variant, config) triple. -/
theorem render_deterministic_witness :
    (renderMeta tSample vSample cSample).buildString
        = (renderMeta tSample vSample cSample).buildString
    ∧ (renderMeta tSample vSample cSample).buildReqs
        = (renderMeta tSample vSample cSample).buildReqs
    ∧ (renderMeta tSample vSample cSample).hostReqs
        = (renderMeta tSample vSample cSample).hostReqs
    ∧ (renderMeta tSample vSample cSample).runReqs
        = (renderMeta tSample vSample cSample).runReqs
    ∧ outputFilePath cSample.croot (renderMeta tSample vSample cSample)
        = outputFilePath cSample.croot (renderMeta tSample vSample cSample)
    ∧ renderMeta tSample vSample cSample = renderMeta tSample vSample cSample :=
  render_deterministic tSample vSample cSample _ _ rfl rfl

/-! ## Lock manager: guaranteed release on all exit paths (spec 3, 4.5) -/

/-- Acquire a lock on a path: its lock file appears on disk. -/
def acquireLock (files : List String) (path : String) : List String :=
  path :: files

/-- Release a lock on a path: its lock file is removed from disk. -/
def releaseLock (files : List String) (path : String) : List String :=
  files.erase path

/-- Acquire locks for all the given directories in order. -/
def acquireAll (files : List String) (dirs : List String) : List String :=
  dirs.foldl acquireLock files

/-- Release locks for all the given directories in order. -/
def releaseAll (files : List String) (dirs : List String) : List String :=
  dirs.foldl releaseLock files

/-- Modelled from the spec: a build invocation locking the configured
build-package directories (the lock manager is not under the sources; spec
3 "Filesystem Lock" and 4.5).  All directory locks are acquired, the body
either succeeds or raises, and on every exit path — the success branch and
the exception branch alike — each acquired lock is released and its lock
file removed before the result or the error propagates. -/
def buildWithLocks (dirs : List String) (body : Except String (List String))
    (files : List String) : Except String (List String) × List String :=
  let files1 := acquireAll files dirs
  match body with
  | .ok outs => (.ok outs, releaseAll files1 dirs)
  | .error e => (.error e, releaseAll files1 dirs)

theorem acquireAll_eq (dirs : List String) (files : List String) :
    acquireAll files dirs = dirs.reverse ++ files := by
  induction dirs generalizing files with
  | nil => rfl
  | cons d ds ih =>
    show acquireAll (d :: files) ds = (d :: ds).reverse ++ files
    rw [ih, List.reverse_cons, List.append_assoc]
    rfl

theorem releaseAll_acquireAll (dirs : List String) (files : List String)
    (hnd : dirs.Nodup) (hfree : ∀ p ∈ dirs, p ∉ files) :
    releaseAll (acquireAll files dirs) dirs = files := by
  induction dirs generalizing files with
  | nil => rfl
  | cons d ds ih =>
    have hdds : d ∉ ds := (List.nodup_cons.mp hnd).1
    have hnds : ds.Nodup := (List.nodup_cons.mp hnd).2
    show releaseAll (releaseLock (acquireAll (acquireLock files d) ds) d) ds = files
    have hrev : d ∉ ds.reverse := fun hmem => hdds (List.mem_reverse.mp hmem)
    have herase : releaseLock (acquireAll (acquireLock files d) ds) d
        = acquireAll files ds := by
      show (acquireAll (d :: files) ds).erase d = acquireAll files ds
      rw [acquireAll_eq, List.erase_append_right _ hrev, List.erase_cons_head,
        acquireAll_eq]
    rw [herase]
    exact ih files hnds fun p hp => hfree p (List.mem_cons_of_mem d hp)

/-- C7: every lock acquired during a build run is released and its lock
file removed on every exit path, including a run that terminates by
raising: after a failed invocation the error propagates unchanged and no
lock file for any configured build-package directory remains on disk. -/
theorem locks_released_on_exception (dirs : List String) (err : String)
    (files : List String) (hnd : dirs.Nodup) (hfree : ∀ p ∈ dirs, p ∉ files) :
    (buildWithLocks dirs (.error err) files).1 = .error err
    ∧ (buildWithLocks dirs (.error err) files).2 = files
    ∧ ∀ p ∈ dirs, p ∉ (buildWithLocks dirs (.error err) files).2 := by
  have hrel : (buildWithLocks dirs (.error err) files).2 = files := by
    show releaseAll (acquireAll files dirs) dirs = files
    exact releaseAll_acquireAll dirs files hnd hfree
  exact ⟨rfl, hrel, fun p hp => by rw [hrel]; exact hfree p hp⟩

/-- Witness for C7: a failing build over one build-package directory leaves
no lock file. -/
theorem locks_released_on_exception_witness :
    (buildWithLocks ["/croot/pkgs"] (.error "Unsatisfiable dependencies") []).2 = []
    ∧ "/croot/pkgs"
        ∉ (buildWithLocks ["/croot/pkgs"] (.error "Unsatisfiable dependencies") []).2 := by
  have H := locks_released_on_exception ["/croot/pkgs"] "Unsatisfiable dependencies" []
    (by simp) (by simp)
  exact ⟨H.2.1, H.2.2 _ (by simp)⟩

/-! ## Hard failure on undefined template expressions (spec 4.2 step 1) -/

/-- A user-facing conda-build error. -/
structure CondaBuildUserError where
  message : String
  deriving DecidableEq, Repr

/-- A token of a recipe template: literal text or a template expression
referencing a variable. -/
inductive TmplTok where
  | lit (s : String)
  | var (name : String)
  deriving DecidableEq, Repr

/-- The error message naming an undefined template expression. -/
def undefinedExprMsg (n : String) : String :=
  "undefined template expression: " ++ n

/-- Modelled from the spec: template substitution (the renderer is not
under the sources; spec 4.2 step 1).  Template expressions are substituted
from the context; an undefined expression is a hard `CondaBuildUserError`
naming the bad expression, never a partial rendering. -/
def renderTemplate (ctx : List (String × String)) :
    List TmplTok → Except CondaBuildUserError String
  | [] => .ok ""
  | TmplTok.lit s :: rest => (renderTemplate ctx rest).map (fun r => s ++ r)
  | TmplTok.var n :: rest =>
    match ctx.lookup n with
    | some v => (renderTemplate ctx rest).map (fun r => v ++ r)
    | none => .error ⟨undefinedExprMsg n⟩

theorem renderTemplate_undefined_error (ctx : List (String × String))
    (tmpl : List TmplTok)
    (h : ∃ n, TmplTok.var n ∈ tmpl ∧ ctx.lookup n = none) :
    ∃ n, TmplTok.var n ∈ tmpl ∧ ctx.lookup n = none
      ∧ renderTemplate ctx tmpl = .error ⟨undefinedExprMsg n⟩ := by
  induction tmpl with
  | nil => obtain ⟨n, hn, _⟩ := h; cases hn
  | cons tok rest ih =>
    obtain ⟨n, hn, hlook⟩ := h
    cases tok with
    | lit s =>
      have hmem : TmplTok.var n ∈ rest := by
        rcases List.mem_cons.mp hn with heq | hmem
        · cases heq
        · exact hmem
      obtain ⟨m, hm, hml, hme⟩ := ih ⟨n, hmem, hlook⟩
      refine ⟨m, List.mem_cons_of_mem _ hm, hml, ?_⟩
      show (renderTemplate ctx rest).map (fun r => s ++ r) = _
      rw [hme]
      rfl
    | var n0 =>
      cases hl0 : ctx.lookup n0 with
      | none =>
        refine ⟨n0, List.mem_cons_self _ _, hl0, ?_⟩
        show (match ctx.lookup n0 with
          | some v => (renderTemplate ctx rest).map (fun r => v ++ r)
          | none => .error ⟨undefinedExprMsg n0⟩) = _
        rw [hl0]
      | some v =>
        have hmem : TmplTok.var n ∈ rest := by
          rcases List.mem_cons.mp hn with heq | hmem
          · cases heq; rw [hl0] at hlook; cases hlook
          · exact hmem
        obtain ⟨m, hm, hml, hme⟩ := ih ⟨n, hmem, hlook⟩
        refine ⟨m, List.mem_cons_of_mem _ hm, hml, ?_⟩
        show (match ctx.lookup n0 with
          | some v => (renderTemplate ctx rest).map (fun r => v ++ r)
          | none => .error ⟨undefinedExprMsg n0⟩) = _
        rw [hl0, hme]
        rfl

/-- C9: a template containing an undefined template expression renders to
a hard `CondaBuildUserError` whose message names an offending expression
(the misspelled variable); no partial result is produced. -/
theorem undefined_expression_hard_error (ctx : List (String × String))
    (tmpl : List TmplTok)
    (h : ∃ n, TmplTok.var n ∈ tmpl ∧ ctx.lookup n = none) :
    (∃ n, TmplTok.var n ∈ tmpl ∧ ctx.lookup n = none
        ∧ renderTemplate ctx tmpl = .error ⟨undefinedExprMsg n⟩)
    ∧ ∀ s, renderTemplate ctx tmpl ≠ .ok s := by
  obtain ⟨n, hn, hl, he⟩ := renderTemplate_undefined_error ctx tmpl h
  refine ⟨⟨n, hn, hl, he⟩, fun s hs => ?_⟩
  rw [he] at hs
  cases hs

/-- Witness for C9 at the misspelled variable of the jinja-typo test. -/
theorem undefined_expression_hard_error_witness :
    renderTemplate [("GIT_DESCRIBE_TAG", "1.20.2")]
        [TmplTok.lit "version: ", TmplTok.var "GIT_DSECRIBE_TAG"]
      ≠ .ok "version: 1.20.2" :=
  (undefined_expression_hard_error [("GIT_DESCRIBE_TAG", "1.20.2")]
      [TmplTok.lit "version: ", TmplTok.var "GIT_DSECRIBE_TAG"]
      ⟨"GIT_DSECRIBE_TAG", by decide, by decide⟩).2 "version: 1.20.2"

/-! ## The metapackage helper (conda_build/metpackage.py) -/

/-- The dict assembled by `create_metapackage`: the `defaultdict(dict)`
with exactly the keys the helper sets; all other sections are absent. -/
structure RawMeta where
  packageName : String
  packageVersion : String
  buildNumber : Nat
  entryPoints : List String
  buildStringOpt : Option String
  runRequirements : List String
  aboutHome : Option String
  aboutLicense : Option String
  aboutSummary : Option String
  deriving DecidableEq, Repr

/-- A metadata object as produced from a dict. -/
structure MetaData where
  name : String
  version : String
  buildNumber : Nat
  entryPoints : List String
  buildString : String
  buildReqs : List String
  hostReqs : List String
  runReqs : List String
  aboutHome : Option String
  aboutLicense : Option String
  aboutSummary : Option String
  deriving DecidableEq, Repr

/-- Modelled from the spec: the automatically derived build string used
when the recipe gives none (`MetaData` is not under the sources; spec 4.2
step 3): a hash token over the resolved build+host dependency set together
with the build number. -/
def autoBuildString (buildHostDeps : List String) (buildNumber : Nat) : String :=
  "h" ++ natToken (hashDeps buildHostDeps) ++ "_" ++ natToken buildNumber

/-- Modelled from the spec: `MetaData.fromdict` on the metapackage dict
(`MetaData` is not under the sources; spec 4.2 steps 2 and 3): missing
sections normalize to empty containers, and the build string is the
explicit one when given and auto-derived when it is None. -/
def MetaData.fromdict (d : RawMeta) : MetaData :=
  { name := d.packageName, version := d.packageVersion,
    buildNumber := d.buildNumber, entryPoints := d.entryPoints,
    buildString := d.buildStringOpt.getD (autoBuildString [] d.buildNumber),
    buildReqs := [], hostReqs := [],
    runReqs := d.runRequirements,
    aboutHome := d.aboutHome, aboutLicense := d.aboutLicense,
    aboutSummary := d.aboutSummary }

/-- The result of delegating to `api.build`: the metadata it was given and
the upload flag. -/
structure BuildResult where
  meta : MetaData
  anacondaUpload : Option Bool
  deriving DecidableEq, Repr

/-- Modelled from the spec: `api.build` invoked on one metadata object
(`api.build` is not under the sources; spec 4.4); for the metapackage
claim only its interface matters: it receives the constructed metadata and
the upload flag, and its result is what the helper returns. -/
def build (m : MetaData) (anaconda_upload : Option Bool) : BuildResult :=
  { meta := m, anacondaUpload := anaconda_upload }

/-- Translated from the source (`conda_build/metpackage.py`,
`create_metapackage`): assemble the dict with exactly the package, build,
requirements-run and about entries, turn it into metadata via
`MetaData.fromdict`, and delegate to `build`. -/
def create_metapackage (name version : String) (entry_points : List String)
    (build_string : Option String) (build_number : Nat)
    (dependencies : List String) (home license summary : Option String)
    (anaconda_upload : Option Bool) : BuildResult :=
  let d : RawMeta :=
    { packageName := name, packageVersion := version,
      buildNumber := build_number, entryPoints := entry_points,
      buildStringOpt := build_string, runRequirements := dependencies,
      aboutHome := home, aboutLicense := license, aboutSummary := summary }
  let m := MetaData.fromdict d
  build m anaconda_upload

/-- C10: `create_metapackage` constructs metadata whose name and version
equal the given arguments exactly, whose build number and entry points are
the given values, whose run requirements equal the dependencies argument,
and whose build string is the explicit argument when provided and the
auto-derived one when None; no dependency section beyond `run` is
populated, the about fields are exactly those passed in, and the helper
delegates to `build`, returning its result. -/
theorem create_metapackage_spec (name version : String) (entry_points : List String)
    (build_string : Option String) (build_number : Nat)
    (dependencies : List String) (home license summary : Option String)
    (anaconda_upload : Option Bool) :
    (create_metapackage name version entry_points build_string build_number
        dependencies home license summary anaconda_upload).meta.name = name
    ∧ (create_metapackage name version entry_points build_string build_number
        dependencies home license summary anaconda_upload).meta.version = version
    ∧ (create_metapackage name version entry_points build_string build_number
        dependencies home license summary anaconda_upload).meta.buildNumber = build_number
    ∧ (create_metapackage name version entry_points build_string build_number
        dependencies home license summary anaconda_upload).meta.entryPoints = entry_points
    ∧ (create_metapackage name version entry_points build_string build_number
        dependencies home license summary anaconda_upload).meta.runReqs = dependencies
    ∧ (create_metapackage name version entry_points build_string build_number
        dependencies home license summary anaconda_upload).meta.buildString
        = build_string.getD (autoBuildString [] build_number)
    ∧ (create_metapackage name version entry_points build_string build_number
        dependencies home license summary anaconda_upload).meta.buildReqs = []
    ∧ (create_metapackage name version entry_points build_string build_number
        dependencies home license summary anaconda_upload).meta.hostReqs = []
    ∧ (create_metapackage name version entry_points build_string build_number
        dependencies home license summary anaconda_upload).meta.aboutHome = home
    ∧ (create_metapackage name version entry_points build_string build_number
        dependencies home license summary anaconda_upload).meta.aboutLicense = license
    ∧ (create_metapackage name version entry_points build_string build_number
        dependencies home license summary anaconda_upload).meta.aboutSummary = summary
    ∧ create_metapackage name version entry_points build_string build_number
        dependencies home license summary anaconda_upload
      = build (MetaData.fromdict
          { packageName := name, packageVersion := version,
            buildNumber := build_number, entryPoints := entry_points,
            buildStringOpt := build_string, runRequirements := dependencies,
            aboutHome := home, aboutLicense := license, aboutSummary := summary })
          anaconda_upload :=
  ⟨rfl, rfl, rfl, rfl, rfl, rfl, rfl, rfl, rfl, rfl, rfl, rfl⟩

end CondaBuild
